import Mathlib

/-!
Shallow embedding of the in-memory commerce engine of the
`uniblox-assignment` backend (`src/backend/app/models.py` and
`src/backend/app/services.py`).

Python floats are modelled as exact rationals; `round(x, 3)` is modelled
as round-half-to-even at three decimal places on rationals.  Python's
nondeterministic inputs (uuid-derived id suffixes, wall-clock timestamps)
are passed to the operations as explicit arguments.  A raised
`ValueError` is modelled as `Except.error`; since every `raise` in the
source occurs before any state mutation, an erroring operation returns
no new state.
-/

namespace Uniblox

/-- Round-half-to-even of a rational to an integer (the rounding
Python's builtin `round` uses on its value). -/
def roundHalfEven (q : ℚ) : ℤ :=
  let n := ⌊q⌋
  let r := q - n
  if r < 1/2 then n
  else if 1/2 < r then n + 1
  else if n % 2 = 0 then n else n + 1

/-- Model of Python `round(x, 3)` on an exact rational value. -/
def pyRound3 (q : ℚ) : ℚ := (roundHalfEven (q * 1000) : ℚ) / 1000

/-- `models.py`: `ProductCategory` enum. -/
inductive ProductCategory where
  | electronics | clothing | books | home | sports
  deriving DecidableEq, Repr

/-- `models.py`: `Product`. -/
structure Product where
  id : String
  name : String
  description : String
  price : ℚ
  category : ProductCategory
  stock : ℤ
  image_url : Option String := none
  deriving DecidableEq, Repr

/-- `models.py`: `CartItem` — the embedded `product` is the value copy
pydantic v1 takes when the `CartItem` is validated. -/
structure CartItem where
  product_id : String
  quantity : ℤ
  product : Product
  deriving DecidableEq, Repr

/-- `models.py`: `Cart` with its stored (denormalised) totals. -/
structure Cart where
  items : List CartItem := []
  total_amount : ℚ := 0
  item_count : ℤ := 0
  deriving DecidableEq, Repr

/-- `models.py`: `Cart.calculate_totals` recomputes both stored totals
from the current items. -/
def Cart.calculate_totals (c : Cart) : Cart :=
  { c with
    total_amount := (c.items.map (fun it => (it.quantity : ℚ) * it.product.price)).sum
    item_count := (c.items.map (fun it => it.quantity)).sum }

/-- `models.py`: `DiscountCode`.  Timestamps are modelled as naturals. -/
structure DiscountCode where
  code : String
  discount_percentage : ℚ := 10
  is_used : Bool := false
  created_at : ℕ
  used_at : Option ℕ := none
  order_id : Option String := none
  deriving DecidableEq, Repr

/-- `models.py`: `OrderStatus` enum. -/
inductive OrderStatus where
  | pending | confirmed | cancelled
  deriving DecidableEq, Repr

/-- `models.py`: `Order`. -/
structure Order where
  id : String
  items : List CartItem
  total_amount : ℚ
  discount_amount : ℚ := 0
  final_amount : ℚ
  discount_code : Option String := none
  status : OrderStatus := .confirmed
  created_at : ℕ
  customer_id : Option String := none
  deriving DecidableEq, Repr

/-- `models.py`: `CheckoutRequest`. -/
structure CheckoutRequest where
  discount_code : Option String := none
  customer_id : Option String := none
  deriving DecidableEq, Repr

/-- `models.py`: `CheckoutResponse`. -/
structure CheckoutResponse where
  order_id : String
  total_amount : ℚ
  discount_amount : ℚ
  final_amount : ℚ
  discount_code : Option String := none
  message : String
  deriving DecidableEq, Repr

/-- `models.py`: `SAMPLE_PRODUCTS`. -/
def SAMPLE_PRODUCTS : List Product :=
  [ { id := "prod_001", name := "Wireless Headphones",
      description := "High-quality wireless headphones with noise cancellation",
      price := 199.99, category := .electronics, stock := 50,
      image_url := some "https://example.com/headphones.jpg" },
    { id := "prod_002", name := "Cotton T-Shirt",
      description := "Comfortable cotton t-shirt in various colors",
      price := 24.99, category := .clothing, stock := 100,
      image_url := some "https://example.com/tshirt.jpg" },
    { id := "prod_003", name := "Programming Book",
      description := "Comprehensive guide to modern programming",
      price := 49.99, category := .books, stock := 25,
      image_url := some "https://example.com/book.jpg" },
    { id := "prod_004", name := "Coffee Maker",
      description := "Automatic coffee maker with timer",
      price := 89.99, category := .home, stock := 30,
      image_url := some "https://example.com/coffee-maker.jpg" },
    { id := "prod_005", name := "Yoga Mat",
      description := "Non-slip yoga mat for home workouts",
      price := 34.99, category := .sports, stock := 75,
      image_url := some "https://example.com/yoga-mat.jpg" } ]

/-- The `ValueError`s the service raises, as distinguishable error
kinds (one per distinct message in `services.py`). -/
inductive Err where
  | notFound (product_id : String)
  | badQuantity
  | insufficientStock (available : ℤ)
  | emptyCart
  | invalidCode
  | notEligible
  deriving DecidableEq, Repr

/-- `services.py`: the mutable state of `EcommerceService`.  The Python
`dict` of products is an insertion-ordered association list. -/
structure EcommerceService where
  cart : Cart := {}
  orders : List Order := []
  discount_codes : List DiscountCode := []
  products : List (String × Product)
  order_counter : ℕ := 0
  discount_nth_order : ℕ := 5
  deriving DecidableEq, Repr

namespace EcommerceService

/-- `services.py`: `EcommerceService.__init__` (the deep copy of each
sample product is the identity under value semantics). -/
def init : EcommerceService :=
  { products := SAMPLE_PRODUCTS.map (fun p => (p.id, p)) }

/-- `services.py`: `get_product` — `self.products.get(product_id)`. -/
def get_product (s : EcommerceService) (product_id : String) : Option Product :=
  (s.products.find? (fun kv => kv.1 == product_id)).map (·.2)

/-- Attribute mutation of the `Product` object stored in the dict:
apply `f` to the entry (or entries) keyed by `product_id`. -/
def updateStock (ps : List (String × Product)) (product_id : String)
    (f : Product → Product) : List (String × Product) :=
  ps.map (fun kv => if kv.1 == product_id then (kv.1, f kv.2) else kv)

/-- The in-place `existing_item.quantity += quantity` on the first cart
line matching the product id. -/
def incFirst (product_id : String) (q : ℤ) : List CartItem → List CartItem
  | [] => []
  | it :: rest =>
    if it.product_id == product_id then
      { it with quantity := it.quantity + q } :: rest
    else it :: incFirst product_id q rest

/-- The new cart-line list `add_to_cart` produces: increment the first
existing line for the product, or append a fresh line embedding the
product snapshot `p`. -/
def addItems (items : List CartItem) (product_id : String) (quantity : ℤ)
    (p : Product) : List CartItem :=
  if items.any (fun it => it.product_id == product_id) then
    incFirst product_id quantity items
  else
    items ++ [{ product_id := product_id, quantity := quantity, product := p }]

/-- `services.py`: `add_to_cart`. -/
def add_to_cart (s : EcommerceService) (product_id : String) (quantity : ℤ) :
    Except Err EcommerceService :=
  match s.get_product product_id with
  | none => .error (.notFound product_id)
  | some product =>
    if quantity ≤ 0 then .error .badQuantity
    else if product.stock < quantity then .error (.insufficientStock product.stock)
    else
      let items' := addItems s.cart.items product_id quantity product
      let products' :=
        updateStock s.products product_id (fun p => { p with stock := p.stock - quantity })
      let cart' := Cart.calculate_totals { s.cart with items := items' }
      .ok { s with cart := cart', products := products' }

/-- One iteration of the `clear_cart` loop: add the line's quantity
back to the catalog product's stock (a no-op when the id is no longer
in the catalog, mirroring the `if product:` skip). -/
def restock (ps : List (String × Product)) (it : CartItem) :
    List (String × Product) :=
  updateStock ps it.product_id (fun p => { p with stock := p.stock + it.quantity })

/-- `services.py`: `clear_cart` — restore each line's quantity to the
catalog product's stock (skipping ids no longer in the catalog), then
reset the cart to a fresh `Cart()`. -/
def clear_cart (s : EcommerceService) : EcommerceService :=
  { s with
    products := s.cart.items.foldl restock s.products
    cart := {} }

/-- `services.py`: `_validate_discount_code` — first code matching
exactly and not yet used. -/
def validate_discount_code (codes : List DiscountCode) (code : String) :
    Option DiscountCode :=
  codes.find? (fun dc => dc.code == code && !dc.is_used)

/-- The in-place mutation `discount_code_obj.is_used = True;
discount_code_obj.used_at = now` on the object `_validate_discount_code`
returned (the first unused entry with that code). -/
def markUsed (now : ℕ) (code : String) : List DiscountCode → List DiscountCode
  | [] => []
  | dc :: rest =>
    if dc.code == code && !dc.is_used then
      { dc with is_used := true, used_at := some now } :: rest
    else dc :: markUsed now code rest

/-- The `Order` checkout constructs: the cart's line snapshot, the
cart's stored total, the computed amounts and the applied code. -/
def checkoutOrder (s : EcommerceService) (request : CheckoutRequest)
    (oid : String) (now : ℕ) (discount_amount final_amount : ℚ)
    (dco : Option String) : Order :=
  { id := "order_" ++ oid, items := s.cart.items,
    total_amount := s.cart.total_amount, discount_amount := discount_amount,
    final_amount := final_amount, discount_code := dco, created_at := now,
    customer_id := request.customer_id }

/-- `services.py`: `checkout`.  `oid` is the uuid-derived hex suffix of
the order id and `now` the wall-clock timestamp, both inputs of the
model. -/
def checkout (s : EcommerceService) (request : CheckoutRequest)
    (oid : String) (now : ℕ) : Except Err (EcommerceService × CheckoutResponse) :=
  if s.cart.items.isEmpty then .error .emptyCart
  else
    let total_amount := s.cart.total_amount
    let applied : Except Err (ℚ × Option String × List DiscountCode) :=
      match request.discount_code with
      | none => .ok (0, none, s.discount_codes)
      | some code =>
        match validate_discount_code s.discount_codes code with
        | none => .error .invalidCode
        | some dc =>
          .ok (pyRound3 (total_amount * (dc.discount_percentage / 100)),
               some code, markUsed now code s.discount_codes)
    match applied with
    | .error e => .error e
    | .ok (discount_amount, discount_code, codes') =>
      let final_amount := pyRound3 (total_amount - discount_amount)
      let order_id := "order_" ++ oid
      let order : Order :=
        checkoutOrder s request oid now discount_amount final_amount discount_code
      let s' : EcommerceService :=
        { s with discount_codes := codes',
                 orders := s.orders ++ [order],
                 order_counter := s.order_counter + 1 }
      let s'' := s'.clear_cart
      .ok (s'', { order_id := order_id, total_amount := total_amount,
                  discount_amount := discount_amount,
                  final_amount := final_amount,
                  discount_code := discount_code,
                  message := "Order placed successfully!" })

/-- `services.py`: `generate_discount_code` followed by
`_generate_discount_code` on success; `suffix` is the uuid-derived
6-character suffix and `now` the wall-clock timestamp. -/
def generate_discount_code (s : EcommerceService) (suffix : String) (now : ℕ) :
    Except Err (EcommerceService × DiscountCode) :=
  if s.order_counter = 0 ∨ s.order_counter % s.discount_nth_order ≠ 0 then
    .error .notEligible
  else
    let dc : DiscountCode := { code := "SAVE10_" ++ suffix, created_at := now }
    .ok ({ s with discount_codes := s.discount_codes ++ [dc] }, dc)

end EcommerceService

/-- One engine operation (with the nondeterministic inputs explicit). -/
inductive Op where
  | add (product_id : String) (quantity : ℤ)
  | clear
  | co (request : CheckoutRequest) (oid : String) (now : ℕ)
  | gen (suffix : String) (now : ℕ)
  deriving DecidableEq, Repr

/-- Apply one operation; a raised `ValueError` leaves the service state
unchanged (every `raise` in the source precedes all mutation). -/
def step (s : EcommerceService) : Op → EcommerceService
  | .add pid q =>
    match s.add_to_cart pid q with
    | .ok s' => s'
    | .error _ => s
  | .clear => s.clear_cart
  | .co req oid now =>
    match s.checkout req oid now with
    | .ok (s', _) => s'
    | .error _ => s
  | .gen suffix now =>
    match s.generate_discount_code suffix now with
    | .ok (s', _) => s'
    | .error _ => s

/-- Run a sequence of operations. -/
def run (s : EcommerceService) (ops : List Op) : EcommerceService :=
  ops.foldl step s

/-- States reachable from a fresh service instance. -/
def Reachable (s : EcommerceService) : Prop :=
  ∃ ops : List Op, run EcommerceService.init ops = s

/-- Stock recorded for a product id in a raw catalog list (0 if absent). -/
def stockIn (ps : List (String × Product)) (product_id : String) : ℤ :=
  ((ps.find? (fun kv => kv.1 == product_id)).map (·.2.stock)).getD 0

/-- Whether a product id is present in a raw catalog list. -/
def hasKey (ps : List (String × Product)) (product_id : String) : Bool :=
  (ps.find? (fun kv => kv.1 == product_id)).isSome

/-- Current stock of a product id in the catalog (0 if absent). -/
def stockOf (s : EcommerceService) (product_id : String) : ℤ :=
  stockIn s.products product_id

/-- Total quantity held in a list of cart lines for one product id. -/
def qtyIn (items : List CartItem) (product_id : String) : ℤ :=
  (items.map (fun it => if it.product_id == product_id then it.quantity else 0)).sum

/-- Total quantity held in the cart for one product id. -/
def cartQty (c : Cart) (product_id : String) : ℤ :=
  qtyIn c.items product_id

/-- The product snapshot embedded in the (first) cart line for a
product id. -/
def snapshotOf (items : List CartItem) (product_id : String) : Option Product :=
  (items.find? (fun it => it.product_id == product_id)).map (·.product)

/-- Whether an operation is an `addToCart` or a `clearCart` call. -/
def isAddClear : Op → Bool
  | .add _ _ => true
  | .clear => true
  | _ => false

/-- The state invariant maintained by every operation: the cart's
stored totals agree with the derived sums, cart lines have pairwise
distinct product ids, the order counter equals the number of orders,
and the discount cadence constant is 5. -/
def Inv (s : EcommerceService) : Prop :=
  s.cart.total_amount = (s.cart.items.map (fun it => (it.quantity : ℚ) * it.product.price)).sum ∧
  s.cart.item_count = (s.cart.items.map (fun it => it.quantity)).sum ∧
  (s.cart.items.map (fun it => it.product_id)).Nodup ∧
  s.order_counter = s.orders.length ∧
  s.discount_nth_order = 5

/-- The first sample product (`prod_001`, the 199.99 headphones). -/
def prod001 : Product := SAMPLE_PRODUCTS.get ⟨0, by decide⟩

/-- A cart line holding one unit of `prod_001` at its list price. -/
def exampleItem : CartItem :=
  { product_id := "prod_001", quantity := 1, product := prod001 }

/-- A concrete pre-checkout state: a cart totalling 199.99 and one
unused 10% discount code. -/
def exampleCartState : EcommerceService :=
  { products := [],
    cart := { items := [exampleItem], total_amount := 199.99, item_count := 1 },
    discount_codes := [{ code := "SAVE10_AAAAAA", created_at := 0 }] }

/-- The discount code of `exampleCartState` after checkout consumed it. -/
def exampleUsedCode : DiscountCode :=
  { code := "SAVE10_AAAAAA", created_at := 0, is_used := true, used_at := some 3 }

/-- The discount on `exampleCartState`'s 199.99 total with a 10% code,
as `checkout` computes it (evaluates to 19.999). -/
def exampleDiscount : ℚ := pyRound3 ((199.99 : ℚ) * (10 / 100))

/-- The final amount on `exampleCartState`'s checkout, as `checkout`
computes it (evaluates to 179.991). -/
def exampleFinalAmount : ℚ := pyRound3 ((199.99 : ℚ) - exampleDiscount)

/-- The order checkout creates from `exampleCartState` with the code. -/
def exampleOrder : Order :=
  { id := "order_ff", items := [exampleItem], total_amount := 199.99,
    discount_amount := exampleDiscount, final_amount := exampleFinalAmount,
    discount_code := some "SAVE10_AAAAAA", created_at := 3 }

/-- The post-checkout state for `exampleCartState`. -/
def exampleFinal : EcommerceService :=
  { cart := {}, orders := [exampleOrder], discount_codes := [exampleUsedCode],
    products := [], order_counter := 1 }

/-- The checkout response for `exampleCartState` with the code. -/
def exampleResp : CheckoutResponse :=
  { order_id := "order_ff", total_amount := 199.99,
    discount_amount := exampleDiscount, final_amount := exampleFinalAmount,
    discount_code := some "SAVE10_AAAAAA",
    message := "Order placed successfully!" }

end Uniblox

namespace Uniblox

open EcommerceService

/-! ### Catalog-list lemmas -/

theorem find?_updateStock_self (ps : List (String × Product)) (pid : String)
    (f : Product → Product) :
    (updateStock ps pid f).find? (fun kv => kv.1 == pid) =
      (ps.find? (fun kv => kv.1 == pid)).map (fun kv => (kv.1, f kv.2)) := by
  induction ps with
  | nil => rfl
  | cons kv rest ih =>
    simp only [updateStock, List.map_cons] at ih ⊢
    cases hb : (kv.1 == pid) with
    | true => simp [List.find?_cons, hb, -List.find?_map]
    | false =>
      simp [List.find?_cons, hb, -List.find?_map]
      simpa [-List.find?_map] using ih

theorem find?_updateStock_ne (ps : List (String × Product)) (pid pid2 : String)
    (f : Product → Product) (h : pid2 ≠ pid) :
    (updateStock ps pid f).find? (fun kv => kv.1 == pid2) =
      ps.find? (fun kv => kv.1 == pid2) := by
  induction ps with
  | nil => rfl
  | cons kv rest ih =>
    simp only [updateStock, List.map_cons] at ih ⊢
    cases hb : (kv.1 == pid) with
    | true =>
      have h2 : (kv.1 == pid2) = false := by
        have hk : kv.1 = pid := by simpa using hb
        simp [hk, Ne.symm h]
      simp [List.find?_cons, hb, h2, -List.find?_map]
      simpa [-List.find?_map] using ih
    | false =>
      cases h2 : (kv.1 == pid2) with
      | true => simp [List.find?_cons, hb, h2, -List.find?_map]
      | false =>
        simp [List.find?_cons, hb, h2, -List.find?_map]
        simpa [-List.find?_map] using ih

theorem hasKey_updateStock (ps : List (String × Product)) (pid pid2 : String)
    (f : Product → Product) :
    hasKey (updateStock ps pid f) pid2 = hasKey ps pid2 := by
  by_cases h : pid2 = pid
  · subst h; simp [hasKey, find?_updateStock_self]
  · simp [hasKey, find?_updateStock_ne ps pid pid2 f h]

theorem stockIn_updateStock_add (ps : List (String × Product)) (pid : String)
    (d : ℤ) (h : hasKey ps pid = true) :
    stockIn (updateStock ps pid (fun p => { p with stock := p.stock + d })) pid =
      stockIn ps pid + d := by
  simp only [hasKey, Option.isSome_iff_exists] at h
  obtain ⟨kv, hkv⟩ := h
  simp [stockIn, find?_updateStock_self, hkv]

theorem stockIn_updateStock_sub (ps : List (String × Product)) (pid : String)
    (d : ℤ) (h : hasKey ps pid = true) :
    stockIn (updateStock ps pid (fun p => { p with stock := p.stock - d })) pid =
      stockIn ps pid - d := by
  simp only [hasKey, Option.isSome_iff_exists] at h
  obtain ⟨kv, hkv⟩ := h
  simp [stockIn, find?_updateStock_self, hkv]

theorem stockIn_updateStock_ne (ps : List (String × Product)) (pid pid2 : String)
    (f : Product → Product) (h : pid2 ≠ pid) :
    stockIn (updateStock ps pid f) pid2 = stockIn ps pid2 := by
  simp [stockIn, find?_updateStock_ne ps pid pid2 f h]

/-! ### Cart-line lemmas -/

theorem qtyIn_cons (it : CartItem) (rest : List CartItem) (pid : String) :
    qtyIn (it :: rest) pid =
      (if it.product_id == pid then it.quantity else 0) + qtyIn rest pid := by
  simp [qtyIn]

theorem qtyIn_append_one (items : List CartItem) (it : CartItem) (pid : String) :
    qtyIn (items ++ [it]) pid =
      qtyIn items pid + (if it.product_id == pid then it.quantity else 0) := by
  simp [qtyIn]

theorem qtyIn_incFirst_mem (items : List CartItem) (pid : String) (q : ℤ)
    (h : items.any (fun it => it.product_id == pid) = true) :
    qtyIn (incFirst pid q items) pid = qtyIn items pid + q := by
  induction items with
  | nil => simp at h
  | cons it rest ih =>
    cases hb : (it.product_id == pid) with
    | true =>
      simp only [incFirst, hb, if_pos]
      rw [qtyIn_cons, qtyIn_cons]
      simp only [hb, if_pos]
      omega
    | false =>
      have h' : rest.any (fun it => it.product_id == pid) = true := by
        simpa [List.any_cons, hb] using h
      simp only [incFirst, hb, Bool.false_eq_true, if_false]
      rw [qtyIn_cons, qtyIn_cons, ih h']
      omega

theorem qtyIn_incFirst_ne (items : List CartItem) (pid pid2 : String) (q : ℤ)
    (h : pid2 ≠ pid) :
    qtyIn (incFirst pid q items) pid2 = qtyIn items pid2 := by
  induction items with
  | nil => rfl
  | cons it rest ih =>
    cases hb : (it.product_id == pid) with
    | true =>
      have h2 : (it.product_id == pid2) = false := by
        have hk : it.product_id = pid := by simpa using hb
        simp [hk, Ne.symm h]
      simp only [incFirst, hb, if_pos]
      rw [qtyIn_cons, qtyIn_cons]
      simp [h2]
    | false =>
      simp only [incFirst, hb, Bool.false_eq_true, if_false]
      rw [qtyIn_cons, qtyIn_cons, ih]

theorem hasKey_restock (ps : List (String × Product)) (it : CartItem)
    (pid : String) : hasKey (restock ps it) pid = hasKey ps pid := by
  simp [restock, hasKey_updateStock]

theorem hasKey_foldl_restock (items : List CartItem) (pid : String) :
    ∀ ps : List (String × Product),
      hasKey (items.foldl restock ps) pid = hasKey ps pid := by
  induction items with
  | nil => intro ps; rfl
  | cons it rest ih =>
    intro ps
    simp only [List.foldl_cons]
    rw [ih, hasKey_restock]

theorem stockIn_foldl_restock (items : List CartItem) (pid : String) :
    ∀ ps : List (String × Product), hasKey ps pid = true →
      stockIn (items.foldl restock ps) pid = stockIn ps pid + qtyIn items pid := by
  induction items with
  | nil => intro ps _; simp [qtyIn]
  | cons it rest ih =>
    intro ps h
    simp only [List.foldl_cons]
    rw [qtyIn_cons,
        ih (restock ps it) (by rw [hasKey_restock]; exact h)]
    cases hb : (it.product_id == pid) with
    | true =>
      have hk : it.product_id = pid := by simpa using hb
      subst hk
      rw [restock, stockIn_updateStock_add _ _ _ h]
      have hq : (if true = true then it.quantity else 0) = it.quantity := by simp
      rw [hq]
      omega
    | false =>
      have hk : pid ≠ it.product_id := by
        intro hc; simp [hc] at hb
      rw [restock, stockIn_updateStock_ne _ _ _ _ hk]
      have hq : (if false = true then it.quantity else 0) = 0 := by simp
      rw [hq]
      omega

theorem map_productId_incFirst (items : List CartItem) (pid : String) (q : ℤ) :
    (incFirst pid q items).map (fun it => it.product_id) =
      items.map (fun it => it.product_id) := by
  induction items with
  | nil => rfl
  | cons it rest ih =>
    cases hb : (it.product_id == pid) with
    | true => simp [incFirst, hb]
    | false => simp [incFirst, hb, ih]

theorem length_incFirst (items : List CartItem) (pid : String) (q : ℤ) :
    (incFirst pid q items).length = items.length := by
  induction items with
  | nil => rfl
  | cons it rest ih =>
    cases hb : (it.product_id == pid) with
    | true => simp [incFirst, hb]
    | false => simp [incFirst, hb, ih]

theorem snapshotOf_incFirst (items : List CartItem) (pid pid2 : String) (q : ℤ) :
    snapshotOf (incFirst pid q items) pid2 = snapshotOf items pid2 := by
  induction items with
  | nil => rfl
  | cons it rest ih =>
    cases hb : (it.product_id == pid) with
    | true =>
      cases h2 : (it.product_id == pid2) with
      | true => simp [incFirst, snapshotOf, List.find?_cons, hb, h2, -List.find?_map]
      | false => simp [incFirst, snapshotOf, List.find?_cons, hb, h2, -List.find?_map]
    | false =>
      cases h2 : (it.product_id == pid2) with
      | true => simp [incFirst, snapshotOf, List.find?_cons, hb, h2, -List.find?_map]
      | false =>
        simp only [incFirst, hb, Bool.false_eq_true, if_false]
        simp only [snapshotOf, List.find?_cons, h2] at ih ⊢
        exact ih

theorem add_to_cart_ok_spec {s : EcommerceService} {pid : String} {q : ℤ}
    {s' : EcommerceService} (h : s.add_to_cart pid q = .ok s') :
    ∃ p, s.get_product pid = some p ∧ 0 < q ∧ q ≤ p.stock ∧
      s' = { s with
        cart := Cart.calculate_totals
          { s.cart with items := addItems s.cart.items pid q p },
        products := updateStock s.products pid
          (fun p => { p with stock := p.stock - q }) } := by
  unfold EcommerceService.add_to_cart at h
  cases hg : s.get_product pid with
  | none => rw [hg] at h; cases h
  | some p =>
    rw [hg] at h
    dsimp only at h
    by_cases h1 : q ≤ 0
    · rw [if_pos h1] at h; cases h
    · rw [if_neg h1] at h
      by_cases h2 : p.stock < q
      · rw [if_pos h2] at h; cases h
      · rw [if_neg h2] at h
        obtain rfl : _ = s' := by injection h
        exact ⟨p, rfl, by omega, by omega, rfl⟩

theorem checkout_ok_spec {s : EcommerceService} {req : CheckoutRequest}
    {oid : String} {now : ℕ} {s' : EcommerceService} {resp : CheckoutResponse}
    (h : s.checkout req oid now = .ok (s', resp)) :
    s.cart.items ≠ [] ∧
    ∃ codes',
      ((req.discount_code = none ∧ resp.discount_amount = 0 ∧
        resp.discount_code = none ∧ codes' = s.discount_codes) ∨
       (∃ code dc, req.discount_code = some code ∧
         validate_discount_code s.discount_codes code = some dc ∧
         resp.discount_amount =
           pyRound3 (s.cart.total_amount * (dc.discount_percentage / 100)) ∧
         resp.discount_code = some code ∧
         codes' = markUsed now code s.discount_codes)) ∧
      resp.order_id = "order_" ++ oid ∧
      resp.total_amount = s.cart.total_amount ∧
      resp.final_amount = pyRound3 (s.cart.total_amount - resp.discount_amount) ∧
      resp.message = "Order placed successfully!" ∧
      s' = EcommerceService.clear_cart { s with
        discount_codes := codes',
        orders := s.orders ++ [checkoutOrder s req oid now resp.discount_amount
          resp.final_amount resp.discount_code],
        order_counter := s.order_counter + 1 } := by
  unfold EcommerceService.checkout at h
  cases hne : s.cart.items.isEmpty with
  | true => rw [hne] at h; cases h
  | false =>
    rw [hne] at h
    simp only [Bool.false_eq_true, if_false] at h
    have hitems : s.cart.items ≠ [] := by
      intro hc; rw [hc] at hne; cases hne
    cases hc : req.discount_code with
    | none =>
      rw [hc] at h
      dsimp only at h
      obtain ⟨hs, hr⟩ : _ ∧ _ := by
        injection h with h'
        exact ⟨congrArg Prod.fst h', congrArg Prod.snd h'⟩
      subst hs; subst hr
      exact ⟨hitems, s.discount_codes, Or.inl ⟨rfl, rfl, rfl, rfl⟩,
        rfl, rfl, rfl, rfl, rfl⟩
    | some code =>
      rw [hc] at h
      dsimp only at h
      cases hv : validate_discount_code s.discount_codes code with
      | none => rw [hv] at h; cases h
      | some dc =>
        rw [hv] at h
        dsimp only at h
        obtain ⟨hs, hr⟩ : _ ∧ _ := by
          injection h with h'
          exact ⟨congrArg Prod.fst h', congrArg Prod.snd h'⟩
        subst hs; subst hr
        exact ⟨hitems, markUsed now code s.discount_codes,
          Or.inr ⟨code, dc, rfl, hv, rfl, rfl, rfl⟩, rfl, rfl, rfl, rfl, rfl⟩

theorem checkout_emptyCart {s : EcommerceService} (req : CheckoutRequest)
    (oid : String) (now : ℕ) (h : s.cart.items = []) :
    s.checkout req oid now = .error .emptyCart := by
  unfold EcommerceService.checkout
  simp [h]

theorem checkout_invalidCode {s : EcommerceService} {req : CheckoutRequest}
    {code : String} (oid : String) (now : ℕ)
    (hc : req.discount_code = some code)
    (hv : validate_discount_code s.discount_codes code = none) :
    s.cart.items ≠ [] → s.checkout req oid now = .error .invalidCode := by
  intro hitems
  unfold EcommerceService.checkout
  have hne : s.cart.items.isEmpty = false := by
    cases hi : s.cart.items with
    | nil => exact absurd hi hitems
    | cons a l => simp [hi]
  rw [hne]
  simp only [Bool.false_eq_true, if_false, hc, hv]

theorem generate_ok_spec {s : EcommerceService} {suffix : String} {now : ℕ}
    {s' : EcommerceService} {dc : DiscountCode}
    (h : s.generate_discount_code suffix now = .ok (s', dc)) :
    ¬(s.order_counter = 0 ∨ s.order_counter % s.discount_nth_order ≠ 0) ∧
    dc = { code := "SAVE10_" ++ suffix, created_at := now } ∧
    s' = { s with discount_codes := s.discount_codes ++ [dc] } := by
  unfold EcommerceService.generate_discount_code at h
  by_cases hcond : s.order_counter = 0 ∨ s.order_counter % s.discount_nth_order ≠ 0
  · rw [if_pos hcond] at h; cases h
  · rw [if_neg hcond] at h
    obtain ⟨hs, hr⟩ : _ ∧ _ := by
      injection h with h'
      exact ⟨congrArg Prod.fst h', congrArg Prod.snd h'⟩
    subst hs; subst hr
    exact ⟨hcond, rfl, rfl⟩

theorem generate_error_iff (s : EcommerceService) (suffix : String) (now : ℕ) :
    s.generate_discount_code suffix now = .error .notEligible ↔
      (s.order_counter = 0 ∨ s.order_counter % s.discount_nth_order ≠ 0) := by
  unfold EcommerceService.generate_discount_code
  by_cases hcond : s.order_counter = 0 ∨ s.order_counter % s.discount_nth_order ≠ 0
  · simp [hcond]
  · simp [hcond]

theorem hasKey_step (s : EcommerceService) (op : Op) (pid : String) :
    hasKey (step s op).products pid = hasKey s.products pid := by
  cases op with
  | add pid' q =>
    cases ha : s.add_to_cart pid' q with
    | error e => simp only [step, ha]
    | ok s' =>
      obtain ⟨p, hg, hq, hs, rfl⟩ := add_to_cart_ok_spec ha
      simp only [step, ha]
      exact hasKey_updateStock _ _ _ _
  | clear =>
    simp only [step, EcommerceService.clear_cart]
    exact hasKey_foldl_restock _ _ _
  | co req oid now =>
    cases hco : s.checkout req oid now with
    | error e => simp only [step, hco]
    | ok pr =>
      obtain ⟨s', resp⟩ := pr
      obtain ⟨_, codes', _, _, _, _, _, rfl⟩ := checkout_ok_spec hco
      simp only [step, hco, EcommerceService.clear_cart]
      exact hasKey_foldl_restock _ _ _
  | gen suffix now =>
    cases hg : s.generate_discount_code suffix now with
    | error e => simp only [step, hg]
    | ok pr =>
      obtain ⟨s', dc⟩ := pr
      obtain ⟨_, _, rfl⟩ := generate_ok_spec hg
      simp only [step, hg]

theorem calculate_totals_items (c : Cart) :
    (Cart.calculate_totals c).items = c.items := rfl

theorem qtyIn_addItems_self (items : List CartItem) (pid : String) (q : ℤ)
    (p : Product) : qtyIn (addItems items pid q p) pid = qtyIn items pid + q := by
  unfold addItems
  by_cases hany : (items.any fun it => it.product_id == pid) = true
  · rw [if_pos hany]; exact qtyIn_incFirst_mem _ _ _ hany
  · rw [if_neg hany]
    rw [qtyIn_append_one]
    simp

theorem qtyIn_addItems_ne (items : List CartItem) (pid pid2 : String) (q : ℤ)
    (p : Product) (h : pid2 ≠ pid) :
    qtyIn (addItems items pid q p) pid2 = qtyIn items pid2 := by
  unfold addItems
  by_cases hany : (items.any fun it => it.product_id == pid) = true
  · rw [if_pos hany]; exact qtyIn_incFirst_ne _ _ _ _ h
  · rw [if_neg hany]
    rw [qtyIn_append_one]
    simp [Ne.symm h]

theorem step_conserves (s : EcommerceService) (op : Op) (pid : String)
    (hac : isAddClear op = true) (hk : hasKey s.products pid = true) :
    stockIn (step s op).products pid + qtyIn (step s op).cart.items pid =
      stockIn s.products pid + qtyIn s.cart.items pid := by
  cases op with
  | add pid' q =>
    cases ha : s.add_to_cart pid' q with
    | error e => simp only [step, ha]
    | ok s' =>
      obtain ⟨p, hg, hq, hs, rfl⟩ := add_to_cart_ok_spec ha
      simp only [step, ha, calculate_totals_items]
      by_cases hpid : pid = pid'
      · subst hpid
        rw [stockIn_updateStock_sub _ _ _ hk, qtyIn_addItems_self]
        omega
      · rw [stockIn_updateStock_ne _ _ _ _ hpid, qtyIn_addItems_ne _ _ _ _ _ hpid]
  | clear =>
    simp only [step, EcommerceService.clear_cart]
    rw [stockIn_foldl_restock _ _ _ hk]
    have hz : qtyIn (Cart.items {}) pid = 0 := rfl
    rw [hz]
    omega
  | co req oid now => simp [isAddClear] at hac
  | gen suffix now => simp [isAddClear] at hac

theorem run_conserves (ops : List Op) :
    ∀ s : EcommerceService, ∀ pid : String,
      (∀ op ∈ ops, isAddClear op = true) → hasKey s.products pid = true →
      stockIn (run s ops).products pid + qtyIn (run s ops).cart.items pid =
        stockIn s.products pid + qtyIn s.cart.items pid := by
  induction ops with
  | nil => intro s pid _ _; rfl
  | cons op rest ih =>
    intro s pid hall hk
    have h1 := step_conserves s op pid (hall op (List.mem_cons_self op rest)) hk
    have hk' : hasKey (step s op).products pid = true := by
      rw [hasKey_step]; exact hk
    have h2 := ih (step s op) pid (fun o ho => hall o (List.mem_cons_of_mem _ ho)) hk'
    simp only [run, List.foldl_cons] at h2 ⊢
    omega

theorem nodup_map_addItems (items : List CartItem) (pid : String) (q : ℤ)
    (p : Product) (h : (items.map (fun it => it.product_id)).Nodup) :
    ((addItems items pid q p).map (fun it => it.product_id)).Nodup := by
  unfold addItems
  by_cases hany : (items.any fun it => it.product_id == pid) = true
  · rw [if_pos hany, map_productId_incFirst]; exact h
  · rw [if_neg hany]
    have hnotmem : pid ∉ items.map (fun it => it.product_id) := by
      intro hmem
      obtain ⟨it, hit, hp⟩ := List.mem_map.mp hmem
      exact hany (List.any_eq_true.mpr ⟨it, hit, by simp [hp]⟩)
    rw [List.map_append]
    refine List.Nodup.append h (by simp) ?_
    intro a ha hb
    simp at hb
    subst hb
    exact hnotmem ha

theorem Inv_init : Inv EcommerceService.init := ⟨rfl, rfl, List.nodup_nil, rfl, rfl⟩

theorem Inv_step (s : EcommerceService) (op : Op) (h : Inv s) :
    Inv (step s op) := by
  obtain ⟨h1, h2, h3, h4, h5⟩ := h
  cases op with
  | add pid q =>
    cases ha : s.add_to_cart pid q with
    | error e => simp only [step, ha]; exact ⟨h1, h2, h3, h4, h5⟩
    | ok s' =>
      obtain ⟨p, hg, hq, hsk, rfl⟩ := add_to_cart_ok_spec ha
      simp only [step, ha]
      exact ⟨rfl, rfl, nodup_map_addItems _ _ _ _ h3, h4, h5⟩
  | clear => exact ⟨rfl, rfl, List.nodup_nil, h4, h5⟩
  | co req oid now =>
    cases hco : s.checkout req oid now with
    | error e => simp only [step, hco]; exact ⟨h1, h2, h3, h4, h5⟩
    | ok pr =>
      obtain ⟨s', resp⟩ := pr
      obtain ⟨hne, codes', hbranch, _, _, _, _, rfl⟩ := checkout_ok_spec hco
      simp only [step, hco]
      refine ⟨rfl, rfl, List.nodup_nil, ?_, h5⟩
      simp [EcommerceService.clear_cart, h4]
  | gen suffix now =>
    cases hgen : s.generate_discount_code suffix now with
    | error e => simp only [step, hgen]; exact ⟨h1, h2, h3, h4, h5⟩
    | ok pr =>
      obtain ⟨s', dc⟩ := pr
      obtain ⟨_, _, rfl⟩ := generate_ok_spec hgen
      simp only [step, hgen]
      exact ⟨h1, h2, h3, h4, h5⟩

theorem run_Inv (ops : List Op) :
    ∀ s : EcommerceService, Inv s → Inv (run s ops) := by
  induction ops with
  | nil => intro s h; exact h
  | cons op rest ih =>
    intro s h
    simp only [run, List.foldl_cons]
    exact ih (step s op) (Inv_step s op h)

theorem reachable_Inv {s : EcommerceService} (h : Reachable s) : Inv s := by
  obtain ⟨ops, hops⟩ := h
  subst hops
  exact run_Inv ops EcommerceService.init Inv_init

theorem snapshotOf_append_some (items l : List CartItem) (pid : String)
    (p : Product) (h : snapshotOf items pid = some p) :
    snapshotOf (items ++ l) pid = some p := by
  induction items with
  | nil => simp [snapshotOf] at h
  | cons it rest ih =>
    cases h2 : (it.product_id == pid) with
    | true =>
      simp only [snapshotOf, List.find?_cons, h2, Option.map_some] at h
      have hp : it.product = p := by simpa using h
      simp only [List.cons_append, snapshotOf, List.find?_cons, h2, Option.map_some]
      simp [hp]
    | false =>
      simp only [snapshotOf, List.find?_cons, h2] at h
      simp only [List.cons_append, snapshotOf, List.find?_cons, h2]
      exact ih h

theorem lookup_updateStock_self (ps : List (String × Product)) (pid : String)
    (f : Product → Product) :
    ((updateStock ps pid f).find? (fun kv => kv.1 == pid)).map (·.2) =
      (((ps.find? (fun kv => kv.1 == pid)).map (·.2)).map f) := by
  rw [find?_updateStock_self]
  cases ps.find? (fun kv => kv.1 == pid) <;> rfl

theorem snapshotOf_append_new (items : List CartItem) (pid : String) (q : ℤ)
    (p : Product) (h : (items.any fun it => it.product_id == pid) = false) :
    snapshotOf (items ++ [{ product_id := pid, quantity := q, product := p }]) pid =
      some p := by
  induction items with
  | nil => simp [snapshotOf]
  | cons it rest ih =>
    simp only [List.any_cons, Bool.or_eq_false_iff] at h
    obtain ⟨h2, h'⟩ := h
    simp only [List.cons_append, snapshotOf, List.find?_cons, h2]
    exact ih h'

/-! ### Claims -/

/-- C1 counterexample: the claim says a successful checkout leaves the
product's stock at `s − q` (sold stock NOT restored).  The code behaves
differently: `checkout` ends by calling `clear_cart`, which restores
every cart line's quantity to the catalog, so after adding 2 units of
`prod_001` (stock 50 → 48) and checking out, the stock is back at 50 —
not the `s − q = 48` the claim requires — even though the cart is empty
and the order was recorded. -/
theorem C1_checkout_restores_sold_stock :
    stockOf EcommerceService.init "prod_001" = 50 ∧
    stockOf (run EcommerceService.init [Op.add "prod_001" 2]) "prod_001" = 48 ∧
    stockOf (run EcommerceService.init
      [Op.add "prod_001" 2, Op.co {} "cafe" 0]) "prod_001" = 50 ∧
    ¬(stockOf (run EcommerceService.init
        [Op.add "prod_001" 2, Op.co {} "cafe" 0]) "prod_001" =
      stockOf EcommerceService.init "prod_001" - 2) ∧
    (run EcommerceService.init
      [Op.add "prod_001" 2, Op.co {} "cafe" 0]).cart.items = [] ∧
    (run EcommerceService.init
      [Op.add "prod_001" 2, Op.co {} "cafe" 0]).orders.length = 1 := by
  refine ⟨rfl, rfl, rfl, by decide, rfl, rfl⟩

/-- C1 amended: a successful checkout empties the cart, records one
order, and fully RESTORES the catalog stock that the cart lines had
reserved (checkout's final `clear_cart` adds each purchased quantity
back), so the stock returns to its pre-add value instead of staying at
`s − q`. -/
theorem C1_amended_checkout_restores_stock (s : EcommerceService)
    (req : CheckoutRequest) (oid : String) (now : ℕ)
    (s' : EcommerceService) (resp : CheckoutResponse)
    (h : s.checkout req oid now = .ok (s', resp)) (pid : String)
    (hk : hasKey s.products pid = true) :
    stockOf s' pid = stockOf s pid + cartQty s.cart pid ∧
    s'.cart.items = [] ∧
    ∃ o, s'.orders = s.orders ++ [o] := by
  obtain ⟨hne, codes', hbr, _, _, _, _, rfl⟩ := checkout_ok_spec h
  refine ⟨?_, rfl, ⟨s.checkoutOrder req oid now resp.discount_amount
    resp.final_amount resp.discount_code, rfl⟩⟩
  exact stockIn_foldl_restock s.cart.items pid s.products hk

/-- Witness for the amended C1: concretely, checking out the cart
holding 2 of `prod_001` restores its stock from 48 back to 48 + 2. -/
theorem C1_amended_checkout_restores_stock_witness :
    stockOf (run EcommerceService.init
        [Op.add "prod_001" 2, Op.co {} "cafe" 0]) "prod_001" =
      stockOf (run EcommerceService.init [Op.add "prod_001" 2]) "prod_001" +
        cartQty (run EcommerceService.init [Op.add "prod_001" 2]).cart "prod_001" ∧
    (run EcommerceService.init
      [Op.add "prod_001" 2, Op.co {} "cafe" 0]).cart.items = [] := by
  cases hco : (run EcommerceService.init [Op.add "prod_001" 2]).checkout
      {} "cafe" 0 with
  | error e =>
    have hok : ((run EcommerceService.init [Op.add "prod_001" 2]).checkout
        {} "cafe" 0).isOk = true := by rfl
    rw [hco] at hok
    simp [Except.isOk, Except.toBool] at hok
  | ok pr =>
    obtain ⟨s2, resp⟩ := pr
    have h := C1_amended_checkout_restores_stock
      (run EcommerceService.init [Op.add "prod_001" 2]) {} "cafe" 0 s2 resp hco
      "prod_001" (by rfl)
    have hrun : run EcommerceService.init
        [Op.add "prod_001" 2, Op.co {} "cafe" 0] = s2 := by
      show step (run EcommerceService.init [Op.add "prod_001" 2])
        (Op.co {} "cafe" 0) = s2
      simp [step, hco]
    rw [hrun]
    exact ⟨h.1, h.2.1⟩

/-- C3: checkout is atomic on failure — an empty cart fails with the
empty-cart error, a discount code with no unused match fails with the
invalid-code error, and any erroring checkout leaves the whole service
state (cart, stock, orders, counter, codes) exactly unchanged. -/
theorem C3_checkout_atomic_on_failure (s : EcommerceService)
    (req : CheckoutRequest) (oid : String) (now : ℕ) :
    (s.cart.items = [] → s.checkout req oid now = .error .emptyCart) ∧
    (∀ code, req.discount_code = some code →
      validate_discount_code s.discount_codes code = none →
      s.cart.items ≠ [] → s.checkout req oid now = .error .invalidCode) ∧
    (∀ e, s.checkout req oid now = .error e → run s [Op.co req oid now] = s) := by
  refine ⟨fun h => checkout_emptyCart req oid now h,
    fun code hc hv hne => checkout_invalidCode oid now hc hv hne, ?_⟩
  intro e he
  simp [run, step, he]

/-- Witness for C3 at concrete inputs: a fresh service rejects checkout
on the empty cart, and a cart with one item rejects an unknown code,
leaving the state unchanged. -/
theorem C3_checkout_atomic_on_failure_witness :
    EcommerceService.init.checkout {} "aa" 0 = .error .emptyCart ∧
    (run EcommerceService.init [Op.add "prod_001" 1]).checkout
      { discount_code := some "NOPE" } "aa" 0 = .error .invalidCode ∧
    run (run EcommerceService.init [Op.add "prod_001" 1])
      [Op.co { discount_code := some "NOPE" } "aa" 0] =
      run EcommerceService.init [Op.add "prod_001" 1] := by
  have h1 := (C3_checkout_atomic_on_failure EcommerceService.init {} "aa" 0).1 rfl
  have h2 := (C3_checkout_atomic_on_failure
    (run EcommerceService.init [Op.add "prod_001" 1])
    { discount_code := some "NOPE" } "aa" 0).2.1 "NOPE" rfl (by decide) (by decide)
  have h3 := (C3_checkout_atomic_on_failure
    (run EcommerceService.init [Op.add "prod_001" 1])
    { discount_code := some "NOPE" } "aa" 0).2.2 .invalidCode h2
  exact ⟨h1, h2, h3⟩

/-- C4: `generate_discount_code` fails with the not-eligible error iff
the order counter is 0 or not a multiple of N = 5; on success it
appends exactly one fresh code (10% , unused) and changes nothing else
— in particular the counter does not advance, so an immediate repeat in
the same eligible state succeeds again. -/
theorem C4_generate_eligibility (s : EcommerceService) (suffix : String)
    (now : ℕ) (h5 : s.discount_nth_order = 5) :
    (s.generate_discount_code suffix now = .error .notEligible ↔
      (s.order_counter = 0 ∨ s.order_counter % 5 ≠ 0)) ∧
    (∀ s' dc, s.generate_discount_code suffix now = .ok (s', dc) →
      dc.discount_percentage = 10 ∧ dc.is_used = false ∧
      s' = { s with discount_codes := s.discount_codes ++ [dc] } ∧
      ∀ suffix2 now2, ∃ s2 dc2,
        s'.generate_discount_code suffix2 now2 = .ok (s2, dc2)) := by
  constructor
  · rw [generate_error_iff, h5]
  · intro s' dc hok
    obtain ⟨hcond, hdc, hs'⟩ := generate_ok_spec hok
    refine ⟨by rw [hdc], by rw [hdc], hs', ?_⟩
    intro suffix2 now2
    subst hs'
    unfold EcommerceService.generate_discount_code
    dsimp only
    rw [if_neg hcond]
    exact ⟨_, _, rfl⟩

/-- Witness for C4: a state with counter 5 (and default N = 5) is not
rejected by the eligibility test. -/
theorem C4_generate_eligibility_witness :
    ({ products := [], order_counter := 5 } : EcommerceService).discount_nth_order = 5 ∧
    ¬(({ products := [], order_counter := 5 } : EcommerceService).generate_discount_code
        "AB12CD" 7 = .error .notEligible) := by
  refine ⟨rfl, ?_⟩
  rw [(C4_generate_eligibility
    ({ products := [], order_counter := 5 } : EcommerceService) "AB12CD" 7 rfl).1]
  decide

/-- C10: `add_to_cart` checks its preconditions in source order —
unknown product first (not-found error regardless of the quantity),
then non-positive quantity (bad-quantity error), then stock
sufficiency — and every failing call leaves the state unchanged. -/
theorem C10_add_check_order (s : EcommerceService) (pid : String) (q : ℤ) :
    (s.get_product pid = none → s.add_to_cart pid q = .error (.notFound pid)) ∧
    (∀ p, s.get_product pid = some p → q ≤ 0 →
      s.add_to_cart pid q = .error .badQuantity) ∧
    (∀ p, s.get_product pid = some p → 0 < q → p.stock < q →
      s.add_to_cart pid q = .error (.insufficientStock p.stock)) ∧
    (∀ e, s.add_to_cart pid q = .error e → run s [Op.add pid q] = s) := by
  refine ⟨?_, ?_, ?_, ?_⟩
  · intro hg
    unfold EcommerceService.add_to_cart
    rw [hg]
  · intro p hg hq
    unfold EcommerceService.add_to_cart
    rw [hg]
    dsimp only
    rw [if_pos hq]
  · intro p hg hq hs
    unfold EcommerceService.add_to_cart
    rw [hg]
    dsimp only
    rw [if_neg (by omega), if_pos hs]
  · intro e he
    simp [run, step, he]

/-- Witness for C10 at concrete inputs: an unknown id with a negative
quantity reports not-found, a known id with quantity 0 reports
bad-quantity, quantity 51 > stock 50 reports insufficient stock, and
the failing call leaves the fresh service unchanged. -/
theorem C10_add_check_order_witness :
    EcommerceService.init.add_to_cart "nope" (-3) = .error (.notFound "nope") ∧
    EcommerceService.init.add_to_cart "prod_001" 0 = .error .badQuantity ∧
    EcommerceService.init.add_to_cart "prod_001" 51 =
      .error (.insufficientStock prod001.stock) ∧
    run EcommerceService.init [Op.add "prod_001" 51] = EcommerceService.init := by
  refine ⟨(C10_add_check_order EcommerceService.init "nope" (-3)).1 (by rfl),
    (C10_add_check_order EcommerceService.init "prod_001" 0).2.1 prod001
      (by rfl) (by decide),
    (C10_add_check_order EcommerceService.init "prod_001" 51).2.2.1 prod001
      (by rfl) (by decide) (by decide), ?_⟩
  exact (C10_add_check_order EcommerceService.init "prod_001" 51).2.2.2
    (.insufficientStock prod001.stock)
    ((C10_add_check_order EcommerceService.init "prod_001" 51).2.2.1 prod001
      (by rfl) (by decide) (by decide))

/-- C2: for any sequence of add/clear operations, the quantity
`stock + Σ(cart quantity)` for a catalog product is conserved; each
successful add moves exactly `q` from stock to cart, and a clear moves
the whole cart quantity back to stock. -/
theorem C2_reservation_invariant (s : EcommerceService) (pid : String)
    (ops : List Op) (hops : ∀ op ∈ ops, isAddClear op = true)
    (hk : hasKey s.products pid = true) :
    (stockOf (run s ops) pid + cartQty (run s ops).cart pid =
      stockOf s pid + cartQty s.cart pid) ∧
    (∀ q s', s.add_to_cart pid q = .ok s' →
      stockOf s' pid = stockOf s pid - q ∧
      cartQty s'.cart pid = cartQty s.cart pid + q) ∧
    stockOf s.clear_cart pid = stockOf s pid + cartQty s.cart pid ∧
    cartQty s.clear_cart.cart pid = 0 := by
  refine ⟨run_conserves ops s pid hops hk, ?_, ?_, rfl⟩
  · intro q s' ha
    obtain ⟨p, hg, hq, hsk, rfl⟩ := add_to_cart_ok_spec ha
    exact ⟨stockIn_updateStock_sub s.products pid q hk,
      qtyIn_addItems_self _ _ _ _⟩
  · exact stockIn_foldl_restock s.cart.items pid s.products hk

/-- Witness for C2: over the fresh service, adding 2 of `prod_001`,
1 of `prod_002` and clearing conserves `prod_001`'s stock + cart sum. -/
theorem C2_reservation_invariant_witness :
    stockOf (run EcommerceService.init
        [Op.add "prod_001" 2, Op.add "prod_002" 1, Op.clear]) "prod_001" +
      cartQty (run EcommerceService.init
        [Op.add "prod_001" 2, Op.add "prod_002" 1, Op.clear]).cart "prod_001" =
    stockOf EcommerceService.init "prod_001" +
      cartQty EcommerceService.init.cart "prod_001" :=
  (C2_reservation_invariant EcommerceService.init "prod_001"
    [Op.add "prod_001" 2, Op.add "prod_002" 1, Op.clear]
    (by decide) (by rfl)).1

/-- C5: on every successful checkout the response's total is the cart's
stored total, the discount is 0 without a code and
`round(total × percentage/100, 3)` with a validated code, and the final
amount is `round(total − discount, 3)`. -/
theorem C5_checkout_amounts (s : EcommerceService) (req : CheckoutRequest)
    (oid : String) (now : ℕ) (s' : EcommerceService) (resp : CheckoutResponse)
    (h : s.checkout req oid now = .ok (s', resp)) :
    resp.total_amount = s.cart.total_amount ∧
    (req.discount_code = none → resp.discount_amount = 0) ∧
    (∀ code dc, req.discount_code = some code →
      validate_discount_code s.discount_codes code = some dc →
      resp.discount_amount =
        pyRound3 (s.cart.total_amount * (dc.discount_percentage / 100))) ∧
    resp.final_amount = pyRound3 (s.cart.total_amount - resp.discount_amount) := by
  obtain ⟨hne, codes', hbr, hoid, htot, hfin, hmsg, hs'⟩ := checkout_ok_spec h
  refine ⟨htot, ?_, ?_, hfin⟩
  · intro hnone
    rcases hbr with ⟨_, hda, _, _⟩ | ⟨code, dc, hcode, _⟩
    · exact hda
    · rw [hnone] at hcode; cases hcode
  · intro code dc hcode hval
    rcases hbr with ⟨hnone, _, _, _⟩ | ⟨code2, dc2, hcode2, hval2, hda, _, _⟩
    · rw [hcode] at hnone; cases hnone
    · rw [hcode] at hcode2
      injection hcode2 with he
      subst he
      rw [hval] at hval2
      injection hval2 with he2
      subst he2
      exact hda

/-- Witness for C5: checking out a 199.99 cart with a 10% code yields
discount 19.999 and final amount 179.991, exactly as rounded. -/
theorem C5_checkout_amounts_witness :
    exampleCartState.checkout { discount_code := some "SAVE10_AAAAAA" } "ff" 3 =
      .ok (exampleFinal, exampleResp) ∧
    exampleResp.total_amount = 199.99 ∧
    exampleResp.discount_amount = 19.999 ∧
    exampleResp.final_amount = 179.991 ∧
    exampleResp.final_amount =
      pyRound3 (exampleCartState.cart.total_amount - exampleResp.discount_amount) := by
  have h : exampleCartState.checkout { discount_code := some "SAVE10_AAAAAA" } "ff" 3 =
      .ok (exampleFinal, exampleResp) := rfl
  have c := C5_checkout_amounts exampleCartState
    { discount_code := some "SAVE10_AAAAAA" } "ff" 3 exampleFinal exampleResp h
  refine ⟨h, rfl, ?_, ?_, c.2.2.2⟩
  · show exampleDiscount = 19.999
    norm_num [exampleDiscount, pyRound3, roundHalfEven]
  · show exampleFinalAmount = 179.991
    norm_num [exampleFinalAmount, exampleDiscount, pyRound3, roundHalfEven]

/-- C6: in every reachable state the cart's stored `total_amount` and
`item_count` equal the sums derived from its current lines. -/
theorem C6_cart_totals_derived (s : EcommerceService) (h : Reachable s) :
    s.cart.total_amount =
      (s.cart.items.map (fun it => (it.quantity : ℚ) * it.product.price)).sum ∧
    s.cart.item_count = (s.cart.items.map (fun it => it.quantity)).sum := by
  obtain ⟨h1, h2, _, _, _⟩ := reachable_Inv h
  exact ⟨h1, h2⟩

/-- Witness for C6 at the reachable state after one add. -/
theorem C6_cart_totals_derived_witness :
    (run EcommerceService.init [Op.add "prod_001" 2]).cart.total_amount =
      ((run EcommerceService.init [Op.add "prod_001" 2]).cart.items.map
        (fun it => (it.quantity : ℚ) * it.product.price)).sum ∧
    (run EcommerceService.init [Op.add "prod_001" 2]).cart.item_count =
      ((run EcommerceService.init [Op.add "prod_001" 2]).cart.items.map
        (fun it => it.quantity)).sum :=
  C6_cart_totals_derived _ ⟨[Op.add "prod_001" 2], rfl⟩

/-- C7: every reachable cart has pairwise-distinct product ids on its
lines; adding an already-carted product rewrites one line in place
(same length, same id list), while adding a new product appends exactly
one line embedding the catalog snapshot. -/
theorem C7_single_line_per_product (s : EcommerceService) (h : Reachable s) :
    ((s.cart.items.map (fun it => it.product_id)).Nodup) ∧
    (∀ pid q s', s.add_to_cart pid q = .ok s' →
      ((s.cart.items.any fun it => it.product_id == pid) = true →
        s'.cart.items = incFirst pid q s.cart.items ∧
        s'.cart.items.length = s.cart.items.length) ∧
      ((s.cart.items.any fun it => it.product_id == pid) = false →
        ∃ p, s.get_product pid = some p ∧
          s'.cart.items = s.cart.items ++ [{ product_id := pid, quantity := q, product := p }])) := by
  refine ⟨(reachable_Inv h).2.2.1, ?_⟩
  intro pid q s' ha
  obtain ⟨p, hg, hq, hsk, rfl⟩ := add_to_cart_ok_spec ha
  constructor
  · intro hany
    have he : addItems s.cart.items pid q p = incFirst pid q s.cart.items := by
      unfold addItems; rw [if_pos hany]
    refine ⟨he, ?_⟩
    show (addItems s.cart.items pid q p).length = s.cart.items.length
    rw [he]
    exact length_incFirst _ _ _
  · intro hany
    refine ⟨p, hg, ?_⟩
    show addItems s.cart.items pid q p = _
    unfold addItems
    rw [if_neg (by simp [hany])]

/-- Witness for C7: after adding `prod_001` twice the reachable cart
still has one line with distinct ids. -/
theorem C7_single_line_per_product_witness :
    ((run EcommerceService.init
      [Op.add "prod_001" 1, Op.add "prod_001" 2]).cart.items.map
        (fun it => it.product_id)).Nodup ∧
    (run EcommerceService.init
      [Op.add "prod_001" 1, Op.add "prod_001" 2]).cart.items.length = 1 := by
  refine ⟨(C7_single_line_per_product _
    ⟨[Op.add "prod_001" 1, Op.add "prod_001" 2], rfl⟩).1, ?_⟩
  rfl

/-- C8: the product embedded in a cart line is a value snapshot taken
when the line is created (the pre-decrement catalog value); later adds
never rewrite existing snapshots, the live catalog entry diverges from
the snapshot by the decrement, checkout copies the lines (snapshots
included) into the order, and no operation mutates recorded orders. -/
theorem C8_snapshot_value_semantics (s : EcommerceService) :
    (∀ pid q s', s.add_to_cart pid q = .ok s' →
      ((s.cart.items.any fun it => it.product_id == pid) = false →
        snapshotOf s'.cart.items pid = s.get_product pid) ∧
      s'.get_product pid = (s.get_product pid).map
        (fun p => { p with stock := p.stock - q }) ∧
      (∀ pid0 p0, snapshotOf s.cart.items pid0 = some p0 →
        snapshotOf s'.cart.items pid0 = some p0)) ∧
    (∀ req oid now s' resp, s.checkout req oid now = .ok (s', resp) →
      ∃ o, s'.orders = s.orders ++ [o] ∧ o.items = s.cart.items) ∧
    (∀ op, ∃ tail, (step s op).orders = s.orders ++ tail) := by
  refine ⟨?_, ?_, ?_⟩
  · intro pid q s' ha
    obtain ⟨p, hg, hq, hsk, rfl⟩ := add_to_cart_ok_spec ha
    refine ⟨?_, ?_, ?_⟩
    · intro hany
      show snapshotOf (addItems s.cart.items pid q p) pid = s.get_product pid
      unfold addItems
      rw [if_neg (by simp [hany])]
      rw [snapshotOf_append_new _ _ _ _ hany, hg]
    · show ((updateStock s.products pid (fun p => { p with stock := p.stock - q })).find?
          (fun kv => kv.1 == pid)).map (·.2) =
        ((s.products.find? (fun kv => kv.1 == pid)).map (·.2)).map
          (fun p => { p with stock := p.stock - q })
      exact lookup_updateStock_self s.products pid _
    · intro pid0 p0 h0
      show snapshotOf (addItems s.cart.items pid q p) pid0 = some p0
      unfold addItems
      by_cases hany : (s.cart.items.any fun it => it.product_id == pid) = true
      · rw [if_pos hany, snapshotOf_incFirst]
        exact h0
      · rw [if_neg hany]
        exact snapshotOf_append_some _ _ _ _ h0
  · intro req oid now s' resp hco
    obtain ⟨_, codes', _, _, _, _, _, rfl⟩ := checkout_ok_spec hco
    exact ⟨s.checkoutOrder req oid now resp.discount_amount resp.final_amount
      resp.discount_code, rfl, rfl⟩
  · intro op
    cases op with
    | add pid q =>
      cases ha : s.add_to_cart pid q with
      | error e => exact ⟨[], by simp [step, ha]⟩
      | ok s1 =>
        obtain ⟨p, hg, hq, hsk, rfl⟩ := add_to_cart_ok_spec ha
        exact ⟨[], by simp [step, ha]⟩
    | clear => exact ⟨[], by simp [step, EcommerceService.clear_cart]⟩
    | co req oid now =>
      cases hco : s.checkout req oid now with
      | error e => exact ⟨[], by simp [step, hco]⟩
      | ok pr =>
        obtain ⟨s1, resp⟩ := pr
        obtain ⟨_, codes', _, _, _, _, _, rfl⟩ := checkout_ok_spec hco
        exact ⟨[s.checkoutOrder req oid now resp.discount_amount resp.final_amount
          resp.discount_code], by simp [step, hco, EcommerceService.clear_cart]⟩
    | gen suffix now =>
      cases hgen : s.generate_discount_code suffix now with
      | error e => exact ⟨[], by simp [step, hgen]⟩
      | ok pr =>
        obtain ⟨s1, dc⟩ := pr
        obtain ⟨_, _, rfl⟩ := generate_ok_spec hgen
        exact ⟨[], by simp [step, hgen]⟩

/-- Witness for C8: after adding 2 of `prod_001`, the embedded snapshot
still shows stock 50 while the live catalog entry shows 48. -/
theorem C8_snapshot_value_semantics_witness :
    snapshotOf (run EcommerceService.init [Op.add "prod_001" 2]).cart.items
      "prod_001" = some prod001 ∧
    (run EcommerceService.init [Op.add "prod_001" 2]).get_product "prod_001" =
      some { prod001 with stock := prod001.stock - 2 } := by
  cases ha : EcommerceService.init.add_to_cart "prod_001" 2 with
  | error e =>
    have hok : (EcommerceService.init.add_to_cart "prod_001" 2).isOk = true := by rfl
    rw [ha] at hok
    simp [Except.isOk, Except.toBool] at hok
  | ok s1 =>
    have hrun : run EcommerceService.init [Op.add "prod_001" 2] = s1 := by
      simp [run, step, ha]
    have h := (C8_snapshot_value_semantics EcommerceService.init).1 "prod_001" 2 s1 ha
    refine ⟨?_, ?_⟩
    · rw [hrun, h.1 (by rfl)]
      rfl
    · rw [hrun, h.2.1]
      rfl

/-- C9: in every reachable state the order counter equals the length of
the order history, so discount eligibility is exactly "the number of
orders is a positive multiple of 5". -/
theorem C9_counter_equals_orders (s : EcommerceService) (h : Reachable s)
    (suffix : String) (now : ℕ) :
    s.order_counter = s.orders.length ∧
    ((∃ s' dc, s.generate_discount_code suffix now = .ok (s', dc)) ↔
      (0 < s.orders.length ∧ s.orders.length % 5 = 0)) := by
  obtain ⟨_, _, _, h4, h5⟩ := reachable_Inv h
  refine ⟨h4, ?_, ?_⟩
  · rintro ⟨s', dc, hok⟩
    obtain ⟨hcond, _, _⟩ := generate_ok_spec hok
    rw [h4, h5] at hcond
    push_neg at hcond
    exact ⟨Nat.pos_of_ne_zero hcond.1, hcond.2⟩
  · rintro ⟨hpos, hmod⟩
    have hcond : ¬(s.order_counter = 0 ∨
        s.order_counter % s.discount_nth_order ≠ 0) := by
      rw [h4, h5]
      omega
    refine ⟨{ s with discount_codes := s.discount_codes ++
        [{ code := "SAVE10_" ++ suffix, created_at := now }] },
      { code := "SAVE10_" ++ suffix, created_at := now }, ?_⟩
    unfold EcommerceService.generate_discount_code
    rw [if_neg hcond]

/-- Witness for C9 at the reachable state holding exactly one order. -/
theorem C9_counter_equals_orders_witness :
    (run EcommerceService.init [Op.add "prod_001" 1, Op.co {} "aa" 0]).order_counter =
      (run EcommerceService.init [Op.add "prod_001" 1, Op.co {} "aa" 0]).orders.length :=
  (C9_counter_equals_orders _
    ⟨[Op.add "prod_001" 1, Op.co {} "aa" 0], rfl⟩ "AB12CD" 7).1

end Uniblox
